import Mathlib

/-!
Shallow embedding of the tool registry and execution engine of
`src/tools.py` (classes `ToolMetadata`, `BaseTool`, `ToolRegistry`), together
with proofs about the behaviour its specification claims.

Modelling conventions:
- Python values that may appear as tool arguments or results are `PyVal`;
  a value that `json.dumps` cannot serialise is `PyVal.obj cls` (an instance
  of a non-JSON class `cls`).
- Python exceptions relevant to the engine are `PyExc`; the three classes the
  module defines (`ToolError`, `ToolTimeoutError`, `ToolValidationError`)
  plus `asyncio.TimeoutError`, `TypeError` (raised by `json.dumps`) and a
  generic handler exception.
- Python `dict`s are association lists with unique keys in insertion order;
  `d[k] = v` replaces in place when the key is present, else appends.
- The md5 hexdigest of the canonical JSON string is a fixed function of that
  string, so the fingerprint is modelled as the serialised string itself:
  equal strings give equal digests, which is the only direction the engine
  relies on.
- An async handler is modelled as a function from the keyword arguments to a
  running time (`duration`, seconds, as a rational) and an outcome (a value
  returned or an exception raised).  `asyncio.wait_for` with an active
  budget `t` raises `asyncio.TimeoutError` exactly when the handler needs
  more than `t` seconds.
-/

namespace BaseMCP

/-- Python values: the JSON-representable shapes plus `obj`, an instance of
a class `json.dumps` rejects with `TypeError`. -/
inductive PyVal where
  | null : PyVal
  | bool : Bool → PyVal
  | int : Int → PyVal
  | str : String → PyVal
  | list : List PyVal → PyVal
  | dict : List (String × PyVal) → PyVal
  | obj : String → PyVal

/-- Python exceptions seen by `ToolRegistry.execute_tool`: the module's own
`ToolError` hierarchy (src/tools.py lines 32-44), `asyncio.TimeoutError`,
`TypeError` (from `json.dumps`), and a generic handler-raised `Exception`
with its class name and message. -/
inductive PyExc where
  | toolError : String → PyExc
  | toolTimeoutError : String → PyExc
  | toolValidationError : String → PyExc
  | asyncioTimeout : PyExc
  | typeError : String → PyExc
  | exc : String → String → PyExc
deriving DecidableEq

/-- Python `str(e)`: the exception's message (`str(asyncio.TimeoutError())`
is the empty string). -/
def excStr : PyExc → String
  | PyExc.toolError m => m
  | PyExc.toolTimeoutError m => m
  | PyExc.toolValidationError m => m
  | PyExc.asyncioTimeout => ""
  | PyExc.typeError m => m
  | PyExc.exc _ m => m

/-- Whether `except asyncio.TimeoutError` catches the exception. -/
def isAsyncioTimeout : PyExc → Bool
  | PyExc.asyncioTimeout => true
  | _ => false

/-- The spec's four-kind failure taxonomy, as the Python classes realise it:
`NotFound` and `ExecutionError` are `ToolError` (distinguished by message),
`TimeoutError` is `ToolTimeoutError`, `ValidationError` is
`ToolValidationError`.  Anything else is outside the taxonomy. -/
def isTaxonomy : PyExc → Bool
  | PyExc.toolError _ => true
  | PyExc.toolTimeoutError _ => true
  | PyExc.toolValidationError _ => true
  | _ => false

/-- Python `dict` lookup `d.get(k)` on an association list. -/
def dictGet {α : Type} (l : List (String × α)) (k : String) : Option α :=
  match l with
  | [] => none
  | (k', v) :: rest => if k' = k then some v else dictGet rest k

/-- Python `dict` assignment `d[k] = v`: replaces in place when the key is
present (insertion order of an existing key is kept), else appends. -/
def dictSet {α : Type} (l : List (String × α)) (k : String) (v : α) :
    List (String × α) :=
  match l with
  | [] => [(k, v)]
  | (k', v') :: rest =>
      if k' = k then (k, v) :: rest else (k', v') :: dictSet rest k v

/-- Python `del d[k]`: removes the entry when present. -/
def dictDel {α : Type} (l : List (String × α)) (k : String) :
    List (String × α) :=
  match l with
  | [] => []
  | (k', v') :: rest => if k' = k then rest else (k', v') :: dictDel rest k

/-- Lexicographic `≤` on character lists: how Python compares strings, by
code point at the first differing position, shorter prefix first. -/
def strLeb : List Char → List Char → Bool
  | [], _ => true
  | _ :: _, [] => false
  | x :: xs, y :: ys =>
      if x < y then true
      else if y < x then false
      else strLeb xs ys

/-- Lexicographic `<` on character lists. -/
def strLtb : List Char → List Char → Bool
  | [], [] => false
  | [], _ :: _ => true
  | _ :: _, [] => false
  | x :: xs, y :: ys =>
      if x < y then true
      else if y < x then false
      else strLtb xs ys

/-- Ordering used by `sorted(kwargs.items())` in `get_cache_key`
(src/tools.py line 74): tuples are compared by their first component, and a
dict's keys are distinct, so the key alone decides. -/
def keyLe (a b : String × PyVal) : Prop := strLeb a.1.data b.1.data = true

instance : DecidableRel keyLe :=
  fun a b => inferInstanceAs (Decidable (strLeb a.1.data b.1.data = true))

/-- The strict version of `keyLe`, used to see that a sorted list with
distinct keys is determined by its multiset of entries. -/
def keyLt (a b : String × PyVal) : Prop := strLtb a.1.data b.1.data = true

instance : IsTotal (String × PyVal) keyLe := by
  constructor
  intro a b
  unfold keyLe
  generalize a.1.data = u
  generalize b.1.data = v
  induction u generalizing v with
  | nil => left; rfl
  | cons x xs ih =>
    cases v with
    | nil => right; rfl
    | cons y ys =>
      by_cases hxy : x < y
      · left; simp [strLeb, hxy]
      · by_cases hyx : y < x
        · right; simp [strLeb, hyx]
        · rcases ih ys with h | h
          · left; simp [strLeb, hxy, hyx, h]
          · right; simp [strLeb, hxy, hyx, h]

instance : IsTrans (String × PyVal) keyLe := by
  constructor
  intro a b c
  unfold keyLe
  have main : ∀ (u v w : List Char),
      strLeb u v = true → strLeb v w = true → strLeb u w = true := by
    intro u
    induction u with
    | nil => intro v w _ _; rfl
    | cons x xs ih =>
      intro v w hab hbc
      cases v with
      | nil => simp [strLeb] at hab
      | cons y ys =>
        cases w with
        | nil => simp [strLeb] at hbc
        | cons z zs =>
          by_cases hxy : x < y
          · by_cases hyz : y < z
            · simp [strLeb, lt_trans hxy hyz]
            · by_cases hzy : z < y
              · simp [strLeb, hyz, hzy] at hbc
              · have hyz' : y = z := le_antisymm (not_lt.mp hzy) (not_lt.mp hyz)
                subst hyz'
                simp [strLeb, hxy]
          · by_cases hyx : y < x
            · simp [strLeb, hxy, hyx] at hab
            · have hxy' : x = y := le_antisymm (not_lt.mp hyx) (not_lt.mp hxy)
              subst hxy'
              simp only [strLeb, hxy, hyx, if_neg] at hab
              by_cases hxz : x < z
              · simp [strLeb, hxz]
              · by_cases hzx : z < x
                · simp [strLeb, hxz, hzx] at hbc
                · have hxz' : x = z := le_antisymm (not_lt.mp hzx) (not_lt.mp hxz)
                  subst hxz'
                  simp only [strLeb, hxz, hzx, if_neg] at hbc
                  simp [strLeb, hxz, hzx, ih ys zs hab hbc]
  exact main _ _ _

instance : IsAntisymm (String × PyVal) keyLt := by
  constructor
  intro a b h1 h2
  exfalso
  unfold keyLt at h1 h2
  have main : ∀ (u v : List Char),
      strLtb u v = true → strLtb v u = true → False := by
    intro u
    induction u with
    | nil =>
      intro v h1 h2
      cases v with
      | nil => simp [strLtb] at h1
      | cons y ys => simp [strLtb] at h2
    | cons x xs ih =>
      intro v h1 h2
      cases v with
      | nil => simp [strLtb] at h1
      | cons y ys =>
        by_cases hxy : x < y
        · simp [strLtb, hxy, lt_asymm hxy] at h2
        · by_cases hyx : y < x
          · simp [strLtb, hxy, hyx] at h1
          · simp only [strLtb, hxy, hyx, if_neg] at h1 h2
            exact ih ys h1 h2
  exact main _ _ h1 h2

/-- `sorted(items)` of src/tools.py line 74, as a stable sort by key. -/
def sortPairs (l : List (String × PyVal)) : List (String × PyVal) :=
  List.insertionSort keyLe l

mutual

/-- Canonical form a value takes under `json.dumps(..., sort_keys=True)`:
every nested dict's items sorted by key. -/
def canon : PyVal → PyVal
  | PyVal.null => PyVal.null
  | PyVal.bool b => PyVal.bool b
  | PyVal.int n => PyVal.int n
  | PyVal.str s => PyVal.str s
  | PyVal.list l => PyVal.list (canonList l)
  | PyVal.dict l => PyVal.dict (sortPairs (canonPairs l))
  | PyVal.obj c => PyVal.obj c
termination_by structural v => v

def canonList : List PyVal → List PyVal
  | [] => []
  | x :: xs => canon x :: canonList xs
termination_by structural l => l

def canonPairs : List (String × PyVal) → List (String × PyVal)
  | [] => []
  | (k, v) :: xs => (k, canon v) :: canonPairs xs
termination_by structural l => l

end

mutual

/-- Serialisation of a canonical value, as `json.dumps` renders it with the
default separators; a non-JSON object raises `TypeError`.  Escaping of
special characters inside strings is elided (the engine only serialises
identifier-like keys and plain values). -/
def render : PyVal → Except PyExc String
  | PyVal.null => Except.ok "null"
  | PyVal.bool b => Except.ok (if b then "true" else "false")
  | PyVal.int n => Except.ok (toString n)
  | PyVal.str s => Except.ok ("\"" ++ s ++ "\"")
  | PyVal.list l =>
      match renderList l with
      | Except.error e => Except.error e
      | Except.ok parts =>
          Except.ok ("[" ++ String.intercalate ", " parts ++ "]")
  | PyVal.dict l =>
      match renderPairs l with
      | Except.error e => Except.error e
      | Except.ok parts =>
          Except.ok ("\x7b" ++ String.intercalate ", " parts ++ "\x7d")
  | PyVal.obj c =>
      Except.error
        (PyExc.typeError ("Object of type " ++ c ++ " is not JSON serializable"))
termination_by structural v => v

def renderList : List PyVal → Except PyExc (List String)
  | [] => Except.ok []
  | x :: xs =>
      match render x with
      | Except.error e => Except.error e
      | Except.ok s =>
          match renderList xs with
          | Except.error e => Except.error e
          | Except.ok rest => Except.ok (s :: rest)
termination_by structural l => l

def renderPairs : List (String × PyVal) → Except PyExc (List String)
  | [] => Except.ok []
  | (k, v) :: xs =>
      match render v with
      | Except.error e => Except.error e
      | Except.ok s =>
          match renderPairs xs with
          | Except.error e => Except.error e
          | Except.ok rest => Except.ok (("\"" ++ k ++ "\": " ++ s) :: rest)
termination_by structural l => l

end

/-- `json.dumps(v, sort_keys=True)`. -/
def jsonDumpsSorted (v : PyVal) : Except PyExc String :=
  render (canon v)

/-- `ToolMetadata` (src/tools.py lines 18-29).  The two schema fields are
JSON values; `timeout` is an optional duration in seconds, modelled as a
rational. -/
structure ToolMetadata where
  name : String
  description : String
  input_schema : PyVal
  output_schema : PyVal
  version : String := "1.0.0"
  tags : List String := []
  timeout : Option Rat := none
  retry_attempts : Nat := 3
  cache_enabled : Bool := true

/-- What the handler does on given keyword arguments: it runs for
`duration` seconds, then either returns a value or raises an exception. -/
structure ExecBehavior where
  duration : Rat
  outcome : Except PyExc PyVal

/-- `BaseTool` (src/tools.py lines 47-77): metadata plus the abstract async
`execute` method, modelled as its observable behaviour per argument set. -/
structure BaseTool where
  metadata : ToolMetadata
  execute : List (String × PyVal) → ExecBehavior

/-- `input_schema.get("required", [])` of src/tools.py line 62.  Schemas
declare `required` as a JSON array of field-name strings (as every schema in
the repository does); other shapes contribute no required fields. -/
def schemaRequired (schema : PyVal) : List String :=
  match schema with
  | PyVal.dict l =>
      match dictGet l "required" with
      | some (PyVal.list fs) =>
          fs.filterMap (fun j =>
            match j with
            | PyVal.str s => some s
            | _ => none)
      | _ => []
  | _ => []

/-- The `for field in required_fields` loop of src/tools.py lines 63-65:
the first required field not present among the argument keys, if any. -/
def findMissing (required : List String) (kwargs : List (String × PyVal)) :
    Option String :=
  match required with
  | [] => none
  | f :: rest =>
      match dictGet kwargs f with
      | none => some f
      | some _ => findMissing rest kwargs

/-- `BaseTool.validate_input` (src/tools.py lines 59-66): raises
`ToolValidationError` naming the first missing required field, else returns
`True`. -/
def validate_input (md : ToolMetadata) (kwargs : List (String × PyVal)) :
    Except PyExc Bool :=
  match findMissing (schemaRequired md.input_schema) kwargs with
  | some f =>
      Except.error
        (PyExc.toolValidationError
          ("Required field \x27" ++ f ++ "\x27 is missing"))
  | none => Except.ok true

/-- `BaseTool.get_cache_key` (src/tools.py lines 68-77): serialise
`dict(tool=name, version=version, params=sorted(kwargs.items()))` with
`json.dumps(..., sort_keys=True)` — a tuple serialises as a JSON array —
and fingerprint the string.  The md5 hexdigest is a fixed function of the
serialised string, so the string itself stands for the fingerprint; a
non-serialisable argument value makes `json.dumps` raise `TypeError`. -/
def get_cache_key (md : ToolMetadata) (kwargs : List (String × PyVal)) :
    Except PyExc String :=
  jsonDumpsSorted
    (PyVal.dict
      [("tool", PyVal.str md.name),
       ("version", PyVal.str md.version),
       ("params",
        PyVal.list
          ((sortPairs kwargs).map
            (fun kv => PyVal.list [PyVal.str kv.1, kv.2])))])

/-- `ToolRegistry` state (src/tools.py lines 83-86): `_tools` and `_cache`
are Python dicts. -/
structure ToolRegistry where
  tools : List (String × BaseTool)
  cache : List (String × PyVal)

/-- `ToolRegistry.register` (src/tools.py lines 88-94): insert or replace
under the tool's metadata name; the replacement case only logs a warning. -/
def register (reg : ToolRegistry) (tool : BaseTool) : ToolRegistry :=
  { reg with tools := dictSet reg.tools tool.metadata.name tool }

/-- `ToolRegistry.unregister` (src/tools.py lines 96-102): remove if
present, warn otherwise. -/
def unregister (reg : ToolRegistry) (tool_name : String) : ToolRegistry :=
  { reg with tools := dictDel reg.tools tool_name }

/-- `ToolRegistry.get_tool` (src/tools.py lines 104-106). -/
def get_tool (reg : ToolRegistry) (tool_name : String) : Option BaseTool :=
  dictGet reg.tools tool_name

/-- `ToolRegistry.list_tools` (src/tools.py lines 108-110):
`list(self._tools.keys())`. -/
def list_tools (reg : ToolRegistry) : List String :=
  reg.tools.map Prod.fst

/-- `ToolRegistry.get_tool_metadata` (src/tools.py lines 112-115). -/
def get_tool_metadata (reg : ToolRegistry) (tool_name : String) :
    Option ToolMetadata :=
  (get_tool reg tool_name).map (fun t => t.metadata)

/-- `ToolRegistry.clear_cache` (src/tools.py lines 156-159). -/
def clear_cache (reg : ToolRegistry) : ToolRegistry :=
  { reg with cache := [] }

/-- Result of one `execute_tool` call: the returned value or raised
exception, whether the handler coroutine was started, and the registry state
afterwards (only the cache ever changes). -/
structure ExecResult where
  outcome : Except PyExc PyVal
  handlerInvoked : Bool
  state : ToolRegistry

/-- The `if tool.metadata.timeout:` truthiness test of src/tools.py
line 135: `None` and `0` are falsy, so no `asyncio.wait_for` budget is
applied for them. -/
def timeoutBudget : Option Rat → Option Rat
  | none => none
  | some t => if t = 0 then none else some t

/-- Src/tools.py lines 143-154, the tail of the `try` block: on handler
success, recompute the cache key and populate the cache when enabled (a
fault in this second derivation is inside the `try`, hence wrapped); a
handler-raised `asyncio.TimeoutError` is caught by the first `except`
clause, any other exception is wrapped as
`ToolError("Tool execution failed: ...")`. -/
def finishHandler (reg : ToolRegistry) (tool : BaseTool) (tool_name : String)
    (kwargs : List (String × PyVal)) (out : Except PyExc PyVal) : ExecResult :=
  match out with
  | Except.ok result =>
      if tool.metadata.cache_enabled then
        match get_cache_key tool.metadata kwargs with
        | Except.ok cache_key =>
            { outcome := Except.ok result
              handlerInvoked := true
              state := { reg with cache := dictSet reg.cache cache_key result } }
        | Except.error e =>
            { outcome :=
                Except.error
                  (PyExc.toolError ("Tool execution failed: " ++ excStr e))
              handlerInvoked := true
              state := reg }
      else
        { outcome := Except.ok result, handlerInvoked := true, state := reg }
  | Except.error e =>
      if isAsyncioTimeout e then
        { outcome :=
            Except.error
              (PyExc.toolTimeoutError
                ("Tool \x27" ++ tool_name ++ "\x27 execution timed out"))
          handlerInvoked := true
          state := reg }
      else
        { outcome :=
            Except.error
              (PyExc.toolError ("Tool execution failed: " ++ excStr e))
          handlerInvoked := true
          state := reg }

/-- Src/tools.py lines 134-141: run the handler, under `asyncio.wait_for`
when a truthy timeout is configured.  Exceeding the budget abandons the
handler's eventual outcome and raises `ToolTimeoutError` via the first
`except` clause; the cache is left untouched. -/
def runHandler (reg : ToolRegistry) (tool : BaseTool) (tool_name : String)
    (kwargs : List (String × PyVal)) : ExecResult :=
  match timeoutBudget tool.metadata.timeout with
  | some t =>
      if t < (tool.execute kwargs).duration then
        { outcome :=
            Except.error
              (PyExc.toolTimeoutError
                ("Tool \x27" ++ tool_name ++ "\x27 execution timed out"))
          handlerInvoked := true
          state := reg }
      else
        finishHandler reg tool tool_name kwargs (tool.execute kwargs).outcome
  | none => finishHandler reg tool tool_name kwargs (tool.execute kwargs).outcome

/-- Src/tools.py lines 126-131: when caching is enabled, derive the cache
key — note this derivation sits OUTSIDE the `try` block, so its fault
propagates unwrapped — and return a cached value on a hit without invoking
the handler. -/
def afterValidate (reg : ToolRegistry) (tool : BaseTool) (tool_name : String)
    (kwargs : List (String × PyVal)) : ExecResult :=
  if tool.metadata.cache_enabled then
    match get_cache_key tool.metadata kwargs with
    | Except.error e =>
        { outcome := Except.error e, handlerInvoked := false, state := reg }
    | Except.ok cache_key =>
        match dictGet reg.cache cache_key with
        | some cached =>
            { outcome := Except.ok cached, handlerInvoked := false, state := reg }
        | none => runHandler reg tool tool_name kwargs
  else
    runHandler reg tool tool_name kwargs

/-- Src/tools.py lines 123-124: validation faults (always
`ToolValidationError`) propagate directly. -/
def withTool (reg : ToolRegistry) (tool : BaseTool) (tool_name : String)
    (kwargs : List (String × PyVal)) : ExecResult :=
  match validate_input tool.metadata kwargs with
  | Except.error e =>
      { outcome := Except.error e, handlerInvoked := false, state := reg }
  | Except.ok _ => afterValidate reg tool tool_name kwargs

/-- `ToolRegistry.execute_tool` (src/tools.py lines 117-154): lookup,
validate, consult the cache, run the handler under the timeout, populate the
cache, translate failures. -/
def execute_tool (reg : ToolRegistry) (tool_name : String)
    (kwargs : List (String × PyVal)) : ExecResult :=
  match get_tool reg tool_name with
  | none =>
      { outcome :=
          Except.error
            (PyExc.toolError ("Tool \x27" ++ tool_name ++ "\x27 not found"))
        handlerInvoked := false
        state := reg }
  | some tool => withTool reg tool tool_name kwargs

/-- Reaching the handler requires a cache miss or disabled caching:
the hypothesis several theorems share. -/
def cacheMissOrDisabled (reg : ToolRegistry) (tool : BaseTool)
    (kwargs : List (String × PyVal)) : Prop :=
  tool.metadata.cache_enabled = true →
    ∃ key, get_cache_key tool.metadata kwargs = Except.ok key ∧
      dictGet reg.cache key = none

/-- An object input schema requiring the given fields, shaped like the
schemas of src/tools.py (e.g. lines 200-207). -/
def objSchema (required : List String) : PyVal :=
  PyVal.dict
    [("type", PyVal.str "object"),
     ("properties", PyVal.dict []),
     ("required", PyVal.list (required.map PyVal.str))]

/-- The duration 50 ms, i.e. the rational 1/20 of a second. -/
def fiftyMs : Rat := ⟨1, 20, by norm_num, by norm_num⟩

/-- The duration 500 ms, i.e. the rational 1/2 of a second. -/
def fiveHundredMs : Rat := ⟨1, 2, by norm_num, by norm_num⟩

/-- A capability that echoes its arguments back, instantly; caching on
(the metadata default). -/
def echoTool : BaseTool :=
  { metadata :=
      { name := "echo", description := "Return the given arguments"
        input_schema := objSchema [], output_schema := PyVal.dict [] }
    execute := fun kwargs =>
      { duration := 0, outcome := Except.ok (PyVal.dict kwargs) } }

/-- A registry holding only `echoTool`, with an empty cache. -/
def regEcho : ToolRegistry := { tools := [("echo", echoTool)], cache := [] }

/-- A capability requiring the field `query`. -/
def needQueryTool : BaseTool :=
  { metadata :=
      { name := "need_query", description := "Requires a query"
        input_schema := objSchema ["query"], output_schema := PyVal.dict [] }
    execute := fun _ => { duration := 0, outcome := Except.ok PyVal.null } }

/-- A registry holding only `needQueryTool`. -/
def regNeedQuery : ToolRegistry :=
  { tools := [("need_query", needQueryTool)], cache := [] }

/-- A capability with a 50 ms budget whose handler needs 500 ms. -/
def slowTool : BaseTool :=
  { metadata :=
      { name := "slow", description := "Sleeps half a second"
        input_schema := objSchema [], output_schema := PyVal.dict []
        timeout := some fiftyMs }
    execute := fun _ =>
      { duration := fiveHundredMs, outcome := Except.ok (PyVal.str "late") } }

/-- A registry holding only `slowTool`. -/
def regSlow : ToolRegistry := { tools := [("slow", slowTool)], cache := [] }

/-- A capability whose handler raises `ValueError("boom")`; caching off so
the run is unconditional. -/
def faultyTool : BaseTool :=
  { metadata :=
      { name := "faulty", description := "Always raises"
        input_schema := objSchema [], output_schema := PyVal.dict []
        cache_enabled := false }
    execute := fun _ =>
      { duration := 0, outcome := Except.error (PyExc.exc "ValueError" "boom") } }

/-- A registry holding only `faultyTool`. -/
def regFaulty : ToolRegistry := { tools := [("faulty", faultyTool)], cache := [] }

/-- A capability with `timeout = 0` whose handler itself surfaces
`asyncio.TimeoutError` (say, from an inner `asyncio.wait_for` it does not
catch). -/
def zeroTimeoutTool : BaseTool :=
  { metadata :=
      { name := "z", description := "Inner wait times out"
        input_schema := objSchema [], output_schema := PyVal.dict []
        timeout := some 0, cache_enabled := false }
    execute := fun _ =>
      { duration := 0, outcome := Except.error PyExc.asyncioTimeout } }

/-- A registry holding only `zeroTimeoutTool`. -/
def regZero : ToolRegistry := { tools := [("z", zeroTimeoutTool)], cache := [] }

/-- A cache-enabled capability named `t` with a trivially succeeding
handler. -/
def serTool : BaseTool :=
  { metadata :=
      { name := "t", description := "Succeeds instantly"
        input_schema := objSchema [], output_schema := PyVal.dict [] }
    execute := fun _ => { duration := 0, outcome := Except.ok (PyVal.str "r") } }

/-- A registry holding only `serTool`. -/
def regSer : ToolRegistry := { tools := [("t", serTool)], cache := [] }

/-- First of two capabilities sharing the name `dup`. -/
def dupFirstTool : BaseTool :=
  { metadata :=
      { name := "dup", description := "the first registration"
        input_schema := objSchema [], output_schema := PyVal.dict [] }
    execute := fun _ => { duration := 0, outcome := Except.ok (PyVal.int 1) } }

/-- Second of two capabilities sharing the name `dup`. -/
def dupSecondTool : BaseTool :=
  { metadata :=
      { name := "dup", description := "the second registration"
        input_schema := objSchema [], output_schema := PyVal.dict [] }
    execute := fun _ => { duration := 0, outcome := Except.ok (PyVal.int 2) } }

/-- The empty registry. -/
def emptyReg : ToolRegistry := { tools := [], cache := [] }

/-- Metadata named `t` at version `1`, for fingerprint derivation alone. -/
def deriveMd : ToolMetadata :=
  { name := "t", description := "d", input_schema := objSchema []
    output_schema := PyVal.dict [], version := "1" }

theorem dictGet_dictSet_self {α : Type} (l : List (String × α)) (k : String)
    (v : α) : dictGet (dictSet l k v) k = some v := by
  induction l with
  | nil => simp [dictSet, dictGet]
  | cons kv rest ih =>
    obtain ⟨k', v'⟩ := kv
    by_cases h : k' = k
    · subst h
      simp [dictSet, dictGet]
    · simp [dictSet, dictGet, h, ih]

theorem keys_dictSet {α : Type} (l : List (String × α)) (k : String) (v : α) :
    (dictSet l k v).map Prod.fst =
      if k ∈ l.map Prod.fst then l.map Prod.fst
      else l.map Prod.fst ++ [k] := by
  induction l with
  | nil => simp [dictSet]
  | cons kv rest ih =>
    obtain ⟨k', v'⟩ := kv
    by_cases h : k' = k
    · subst h
      simp [dictSet]
    · have hk : ¬k = k' := fun hh => h hh.symm
      by_cases hm : k ∈ rest.map Prod.fst
      · simp [dictSet, h, ih, hm, hk]
      · simp [dictSet, h, ih, hm, hk]

theorem dictGet_eq_none_iff {α : Type} (l : List (String × α)) (k : String) :
    dictGet l k = none ↔ k ∉ l.map Prod.fst := by
  induction l with
  | nil => simp [dictGet]
  | cons kv rest ih =>
    obtain ⟨k', v'⟩ := kv
    by_cases h : k' = k
    · subst h
      simp [dictGet]
    · have hk : ¬k = k' := fun hh => h hh.symm
      simp [dictGet, h, ih, hk]

theorem findMissing_perm (required : List String)
    {l₁ l₂ : List (String × PyVal)} (h : l₁.Perm l₂) :
    findMissing required l₁ = findMissing required l₂ := by
  induction required with
  | nil => rfl
  | cons f rest ih =>
    have hmem : dictGet l₁ f = none ↔ dictGet l₂ f = none := by
      rw [dictGet_eq_none_iff, dictGet_eq_none_iff, (h.map Prod.fst).mem_iff]
    cases h₁ : dictGet l₁ f with
    | none =>
      have h₂ := hmem.mp h₁
      simp [findMissing, h₁, h₂]
    | some v =>
      cases h₂ : dictGet l₂ f with
      | none =>
        have := hmem.mpr h₂
        rw [h₁] at this
        exact Option.noConfusion this
      | some w => simp [findMissing, h₁, h₂, ih]

theorem validate_input_perm (md : ToolMetadata)
    {l₁ l₂ : List (String × PyVal)} (h : l₁.Perm l₂) :
    validate_input md l₁ = validate_input md l₂ := by
  unfold validate_input
  rw [findMissing_perm _ h]

theorem strLeb_ne_lt : ∀ (u v : List Char),
    strLeb u v = true → u ≠ v → strLtb u v = true := by
  intro u
  induction u with
  | nil =>
    intro v h hne
    cases v with
    | nil => exact absurd rfl hne
    | cons y ys => rfl
  | cons x xs ih =>
    intro v h hne
    cases v with
    | nil => simp [strLeb] at h
    | cons y ys =>
      by_cases hxy : x < y
      · simp [strLtb, hxy]
      · by_cases hyx : y < x
        · simp [strLeb, hxy, hyx] at h
        · have hx : x = y := le_antisymm (not_lt.mp hyx) (not_lt.mp hxy)
          subst hx
          simp only [strLeb, hxy, hyx, if_neg] at h
          have hne' : xs ≠ ys := fun hh => hne (by rw [hh])
          simp only [strLtb, hxy, hyx, if_neg]
          exact ih ys h hne'

theorem stringDataInj : ∀ {s t : String}, s.data = t.data → s = t := by
  intro s t h
  cases s
  cases t
  exact congrArg String.mk h

theorem keyLe_ne_lt {a b : String × PyVal} (hle : keyLe a b)
    (hne : a.1 ≠ b.1) : keyLt a b :=
  strLeb_ne_lt _ _ hle (fun hd => hne (stringDataInj hd))

theorem sorted_keyLe_to_keyLt {l : List (String × PyVal)}
    (hs : List.Sorted keyLe l) (hnd : (l.map Prod.fst).Nodup) :
    List.Sorted keyLt l := by
  have hne : l.Pairwise (fun a b => a.1 ≠ b.1) := List.pairwise_map.mp hnd
  exact List.Pairwise.imp (fun hab => keyLe_ne_lt hab.1 hab.2)
    (List.Pairwise.and hs hne)

theorem sortPairs_perm_eq {l₁ l₂ : List (String × PyVal)} (h : l₁.Perm l₂)
    (hnd : (l₁.map Prod.fst).Nodup) : sortPairs l₁ = sortPairs l₂ := by
  have hp : (sortPairs l₁).Perm (sortPairs l₂) :=
    (List.perm_insertionSort keyLe l₁).trans
      (h.trans (List.perm_insertionSort keyLe l₂).symm)
  have hnd₁ : ((sortPairs l₁).map Prod.fst).Nodup :=
    (((List.perm_insertionSort keyLe l₁).map Prod.fst).nodup_iff).mpr hnd
  have hnd₂ : ((sortPairs l₂).map Prod.fst).Nodup :=
    (((List.perm_insertionSort keyLe l₂).map Prod.fst).nodup_iff).mpr
      (((h.map Prod.fst).nodup_iff).mp hnd)
  exact List.eq_of_perm_of_sorted hp
    (sorted_keyLe_to_keyLt (List.sorted_insertionSort keyLe l₁) hnd₁)
    (sorted_keyLe_to_keyLt (List.sorted_insertionSort keyLe l₂) hnd₂)

theorem get_cache_key_perm (md : ToolMetadata)
    {l₁ l₂ : List (String × PyVal)} (h : l₁.Perm l₂)
    (hnd : (l₁.map Prod.fst).Nodup) :
    get_cache_key md l₁ = get_cache_key md l₂ := by
  unfold get_cache_key
  rw [sortPairs_perm_eq h hnd]

theorem validate_ok_true {md : ToolMetadata} {kwargs : List (String × PyVal)}
    {b : Bool} (h : validate_input md kwargs = Except.ok b) :
    validate_input md kwargs = Except.ok true := by
  unfold validate_input at h ⊢
  cases hf : findMissing (schemaRequired md.input_schema) kwargs with
  | some f =>
    rw [hf] at h
    exact Except.noConfusion h
  | none => exact rfl

theorem validate_error_taxonomy {md : ToolMetadata}
    {kwargs : List (String × PyVal)} {e : PyExc}
    (h : validate_input md kwargs = Except.error e) : isTaxonomy e = true := by
  unfold validate_input at h
  cases hf : findMissing (schemaRequired md.input_schema) kwargs with
  | some f =>
    rw [hf] at h
    injection h with h2
    subst h2
    rfl
  | none =>
    rw [hf] at h
    exact Except.noConfusion h

theorem finishHandler_ok_cache_eq {reg : ToolRegistry} {tool : BaseTool}
    {tool_name : String} {kwargs : List (String × PyVal)} {key : String}
    (hce : tool.metadata.cache_enabled = true)
    (hkey : get_cache_key tool.metadata kwargs = Except.ok key)
    (result : PyVal) :
    finishHandler reg tool tool_name kwargs (Except.ok result)
      = ⟨Except.ok result, true,
          { reg with cache := dictSet reg.cache key result }⟩ := by
  simp only [finishHandler]
  rw [if_pos hce]
  simp only [hkey]

theorem finishHandler_ok_keyerr_eq {reg : ToolRegistry} {tool : BaseTool}
    {tool_name : String} {kwargs : List (String × PyVal)} {e : PyExc}
    (hce : tool.metadata.cache_enabled = true)
    (hkey : get_cache_key tool.metadata kwargs = Except.error e)
    (result : PyVal) :
    finishHandler reg tool tool_name kwargs (Except.ok result)
      = ⟨Except.error (PyExc.toolError ("Tool execution failed: " ++ excStr e)),
          true, reg⟩ := by
  simp only [finishHandler]
  rw [if_pos hce]
  simp only [hkey]

theorem finishHandler_ok_nocache_eq {reg : ToolRegistry} {tool : BaseTool}
    {tool_name : String} {kwargs : List (String × PyVal)}
    (hce : ¬tool.metadata.cache_enabled = true) (result : PyVal) :
    finishHandler reg tool tool_name kwargs (Except.ok result)
      = ⟨Except.ok result, true, reg⟩ := by
  simp only [finishHandler]
  rw [if_neg hce]

theorem finishHandler_err_timeout_eq {reg : ToolRegistry} {tool : BaseTool}
    {tool_name : String} {kwargs : List (String × PyVal)} {e : PyExc}
    (ht : isAsyncioTimeout e = true) :
    finishHandler reg tool tool_name kwargs (Except.error e)
      = ⟨Except.error
            (PyExc.toolTimeoutError
              ("Tool \x27" ++ tool_name ++ "\x27 execution timed out")),
          true, reg⟩ := by
  simp only [finishHandler]
  rw [if_pos ht]

theorem finishHandler_err_wrap_eq {reg : ToolRegistry} {tool : BaseTool}
    {tool_name : String} {kwargs : List (String × PyVal)} {e : PyExc}
    (ht : ¬isAsyncioTimeout e = true) :
    finishHandler reg tool tool_name kwargs (Except.error e)
      = ⟨Except.error (PyExc.toolError ("Tool execution failed: " ++ excStr e)),
          true, reg⟩ := by
  simp only [finishHandler]
  rw [if_neg ht]

theorem runHandler_timeout_eq {reg : ToolRegistry} {tool : BaseTool}
    {tool_name : String} {kwargs : List (String × PyVal)} {t : Rat}
    (hb : timeoutBudget tool.metadata.timeout = some t)
    (hd : t < (tool.execute kwargs).duration) :
    runHandler reg tool tool_name kwargs
      = ⟨Except.error
            (PyExc.toolTimeoutError
              ("Tool \x27" ++ tool_name ++ "\x27 execution timed out")),
          true, reg⟩ := by
  unfold runHandler
  simp only [hb]
  rw [if_pos hd]

theorem runHandler_intime_eq {reg : ToolRegistry} {tool : BaseTool}
    {tool_name : String} {kwargs : List (String × PyVal)} {t : Rat}
    (hb : timeoutBudget tool.metadata.timeout = some t)
    (hd : ¬t < (tool.execute kwargs).duration) :
    runHandler reg tool tool_name kwargs
      = finishHandler reg tool tool_name kwargs (tool.execute kwargs).outcome := by
  unfold runHandler
  simp only [hb]
  rw [if_neg hd]

theorem runHandler_notime_eq {reg : ToolRegistry} {tool : BaseTool}
    {tool_name : String} {kwargs : List (String × PyVal)}
    (hb : timeoutBudget tool.metadata.timeout = none) :
    runHandler reg tool tool_name kwargs
      = finishHandler reg tool tool_name kwargs (tool.execute kwargs).outcome := by
  unfold runHandler
  simp only [hb]

theorem afterValidate_keyerr_eq {reg : ToolRegistry} {tool : BaseTool}
    {tool_name : String} {kwargs : List (String × PyVal)} {e : PyExc}
    (hce : tool.metadata.cache_enabled = true)
    (hkey : get_cache_key tool.metadata kwargs = Except.error e) :
    afterValidate reg tool tool_name kwargs
      = ⟨Except.error e, false, reg⟩ := by
  unfold afterValidate
  rw [if_pos hce]
  simp only [hkey]

theorem afterValidate_hit_eq {reg : ToolRegistry} {tool : BaseTool}
    {tool_name : String} {kwargs : List (String × PyVal)} {key : String}
    {w : PyVal} (hce : tool.metadata.cache_enabled = true)
    (hkey : get_cache_key tool.metadata kwargs = Except.ok key)
    (hm : dictGet reg.cache key = some w) :
    afterValidate reg tool tool_name kwargs = ⟨Except.ok w, false, reg⟩ := by
  unfold afterValidate
  rw [if_pos hce]
  simp only [hkey, hm]

theorem afterValidate_miss_eq {reg : ToolRegistry} {tool : BaseTool}
    {tool_name : String} {kwargs : List (String × PyVal)} {key : String}
    (hce : tool.metadata.cache_enabled = true)
    (hkey : get_cache_key tool.metadata kwargs = Except.ok key)
    (hm : dictGet reg.cache key = none) :
    afterValidate reg tool tool_name kwargs
      = runHandler reg tool tool_name kwargs := by
  unfold afterValidate
  rw [if_pos hce]
  simp only [hkey, hm]

theorem afterValidate_nocache_eq {reg : ToolRegistry} {tool : BaseTool}
    {tool_name : String} {kwargs : List (String × PyVal)}
    (hce : ¬tool.metadata.cache_enabled = true) :
    afterValidate reg tool tool_name kwargs
      = runHandler reg tool tool_name kwargs := by
  unfold afterValidate
  rw [if_neg hce]

theorem withTool_validate_err_eq {reg : ToolRegistry} {tool : BaseTool}
    {tool_name : String} {kwargs : List (String × PyVal)} {e : PyExc}
    (hv : validate_input tool.metadata kwargs = Except.error e) :
    withTool reg tool tool_name kwargs = ⟨Except.error e, false, reg⟩ := by
  unfold withTool
  simp only [hv]

theorem withTool_validate_ok_eq {reg : ToolRegistry} {tool : BaseTool}
    {tool_name : String} {kwargs : List (String × PyVal)} {b : Bool}
    (hv : validate_input tool.metadata kwargs = Except.ok b) :
    withTool reg tool tool_name kwargs
      = afterValidate reg tool tool_name kwargs := by
  unfold withTool
  simp only [hv]

theorem execute_eq_notfound {reg : ToolRegistry} {tool_name : String}
    {kwargs : List (String × PyVal)} (hreg : get_tool reg tool_name = none) :
    execute_tool reg tool_name kwargs
      = ⟨Except.error
            (PyExc.toolError ("Tool \x27" ++ tool_name ++ "\x27 not found")),
          false, reg⟩ := by
  unfold execute_tool
  simp only [hreg]

theorem execute_eq_withTool {reg : ToolRegistry} {tool : BaseTool}
    {tool_name : String} {kwargs : List (String × PyVal)}
    (hreg : get_tool reg tool_name = some tool) :
    execute_tool reg tool_name kwargs = withTool reg tool tool_name kwargs := by
  unfold execute_tool
  simp only [hreg]

theorem finishHandler_error_taxonomy {reg : ToolRegistry} {tool : BaseTool}
    {tool_name : String} {kwargs : List (String × PyVal)}
    {out : Except PyExc PyVal} {e : PyExc}
    (h : (finishHandler reg tool tool_name kwargs out).outcome = Except.error e) :
    isTaxonomy e = true := by
  cases out with
  | ok result =>
    by_cases hce : tool.metadata.cache_enabled = true
    · cases hkey : get_cache_key tool.metadata kwargs with
      | ok ck =>
        rw [finishHandler_ok_cache_eq hce hkey] at h
        exact Except.noConfusion h
      | error e2 =>
        rw [finishHandler_ok_keyerr_eq hce hkey] at h
        injection h with h2
        subst h2
        rfl
    · rw [finishHandler_ok_nocache_eq hce] at h
      exact Except.noConfusion h
  | error e2 =>
    by_cases ht : isAsyncioTimeout e2 = true
    · rw [finishHandler_err_timeout_eq ht] at h
      injection h with h2
      subst h2
      rfl
    · rw [finishHandler_err_wrap_eq ht] at h
      injection h with h2
      subst h2
      rfl

theorem runHandler_error_taxonomy {reg : ToolRegistry} {tool : BaseTool}
    {tool_name : String} {kwargs : List (String × PyVal)} {e : PyExc}
    (h : (runHandler reg tool tool_name kwargs).outcome = Except.error e) :
    isTaxonomy e = true := by
  cases hb : timeoutBudget tool.metadata.timeout with
  | none =>
    rw [runHandler_notime_eq hb] at h
    exact finishHandler_error_taxonomy h
  | some t =>
    by_cases hd : t < (tool.execute kwargs).duration
    · rw [runHandler_timeout_eq hb hd] at h
      injection h with h2
      subst h2
      rfl
    · rw [runHandler_intime_eq hb hd] at h
      exact finishHandler_error_taxonomy h

theorem execute_reaches_handler {reg : ToolRegistry} {tool : BaseTool}
    {tool_name : String} {kwargs : List (String × PyVal)}
    (hreg : get_tool reg tool_name = some tool)
    (hv : validate_input tool.metadata kwargs = Except.ok true)
    (hcache : cacheMissOrDisabled reg tool kwargs) :
    execute_tool reg tool_name kwargs = runHandler reg tool tool_name kwargs := by
  rw [execute_eq_withTool hreg, withTool_validate_ok_eq hv]
  by_cases hce : tool.metadata.cache_enabled = true
  · obtain ⟨key, hk, hm⟩ := hcache hce
    exact afterValidate_miss_eq hce hk hm
  · exact afterValidate_nocache_eq hce

theorem finishHandler_ok_invariants {reg : ToolRegistry} {tool : BaseTool}
    {tool_name : String} {kwargs : List (String × PyVal)}
    {out : Except PyExc PyVal} {v : PyVal} {key : String}
    (hce : tool.metadata.cache_enabled = true)
    (hkey : get_cache_key tool.metadata kwargs = Except.ok key)
    (hok : (finishHandler reg tool tool_name kwargs out).outcome = Except.ok v) :
    (finishHandler reg tool tool_name kwargs out).state.tools = reg.tools ∧
    dictGet (finishHandler reg tool tool_name kwargs out).state.cache key
      = some v := by
  cases out with
  | ok result =>
    rw [finishHandler_ok_cache_eq hce hkey] at hok ⊢
    injection hok with h2
    subst h2
    exact ⟨rfl, dictGet_dictSet_self reg.cache key result⟩
  | error e =>
    by_cases ht : isAsyncioTimeout e = true
    · rw [finishHandler_err_timeout_eq ht] at hok
      exact Except.noConfusion hok
    · rw [finishHandler_err_wrap_eq ht] at hok
      exact Except.noConfusion hok

theorem runHandler_ok_invariants {reg : ToolRegistry} {tool : BaseTool}
    {tool_name : String} {kwargs : List (String × PyVal)}
    {v : PyVal} {key : String}
    (hce : tool.metadata.cache_enabled = true)
    (hkey : get_cache_key tool.metadata kwargs = Except.ok key)
    (hok : (runHandler reg tool tool_name kwargs).outcome = Except.ok v) :
    (runHandler reg tool tool_name kwargs).state.tools = reg.tools ∧
    dictGet (runHandler reg tool tool_name kwargs).state.cache key = some v := by
  cases hb : timeoutBudget tool.metadata.timeout with
  | none =>
    rw [runHandler_notime_eq hb] at hok ⊢
    exact finishHandler_ok_invariants hce hkey hok
  | some t =>
    by_cases hd : t < (tool.execute kwargs).duration
    · rw [runHandler_timeout_eq hb hd] at hok
      exact Except.noConfusion hok
    · rw [runHandler_intime_eq hb hd] at hok ⊢
      exact finishHandler_ok_invariants hce hkey hok

theorem withTool_ok_validate {reg : ToolRegistry} {tool : BaseTool}
    {tool_name : String} {kwargs : List (String × PyVal)} {v : PyVal}
    (hok : (withTool reg tool tool_name kwargs).outcome = Except.ok v) :
    validate_input tool.metadata kwargs = Except.ok true := by
  cases hv : validate_input tool.metadata kwargs with
  | error e =>
    rw [withTool_validate_err_eq hv] at hok
    exact Except.noConfusion hok
  | ok b =>
    rw [← hv]
    exact validate_ok_true hv

theorem afterValidate_ok_invariants {reg : ToolRegistry} {tool : BaseTool}
    {tool_name : String} {kwargs : List (String × PyVal)} {v : PyVal}
    (hce : tool.metadata.cache_enabled = true)
    (hok : (afterValidate reg tool tool_name kwargs).outcome = Except.ok v) :
    (afterValidate reg tool tool_name kwargs).state.tools = reg.tools ∧
    ∃ key, get_cache_key tool.metadata kwargs = Except.ok key ∧
      dictGet (afterValidate reg tool tool_name kwargs).state.cache key
        = some v := by
  cases hkey : get_cache_key tool.metadata kwargs with
  | error e =>
    rw [afterValidate_keyerr_eq hce hkey] at hok
    exact Except.noConfusion hok
  | ok key =>
    cases hm : dictGet reg.cache key with
    | some w =>
      rw [afterValidate_hit_eq hce hkey hm] at hok ⊢
      injection hok with hw
      subst hw
      exact ⟨rfl, key, rfl, hm⟩
    | none =>
      rw [afterValidate_miss_eq hce hkey hm] at hok ⊢
      obtain ⟨ht, hc⟩ := runHandler_ok_invariants hce hkey hok
      exact ⟨ht, key, rfl, hc⟩

theorem execute_ok_invariants {reg : ToolRegistry} {tool : BaseTool}
    {tool_name : String} {kwargs : List (String × PyVal)} {v : PyVal}
    (hreg : get_tool reg tool_name = some tool)
    (hce : tool.metadata.cache_enabled = true)
    (hok : (execute_tool reg tool_name kwargs).outcome = Except.ok v) :
    validate_input tool.metadata kwargs = Except.ok true ∧
    (execute_tool reg tool_name kwargs).state.tools = reg.tools ∧
    ∃ key, get_cache_key tool.metadata kwargs = Except.ok key ∧
      dictGet (execute_tool reg tool_name kwargs).state.cache key = some v := by
  rw [execute_eq_withTool hreg] at hok ⊢
  have hval : validate_input tool.metadata kwargs = Except.ok true :=
    withTool_ok_validate hok
  rw [withTool_validate_ok_eq hval] at hok ⊢
  obtain ⟨ht, key, hk, hc⟩ := afterValidate_ok_invariants hce hok
  exact ⟨hval, ht, key, hk, hc⟩

theorem isAsyncioTimeout_eq {e : PyExc} (h : isAsyncioTimeout e = true) :
    e = PyExc.asyncioTimeout := by
  cases e <;> first | rfl | exact Bool.noConfusion h

theorem findMissing_some_of_missing {required : List String}
    {kwargs : List (String × PyVal)} {f : String}
    (hf : f ∈ required) (hmiss : dictGet kwargs f = none) :
    ∃ g, findMissing required kwargs = some g ∧ g ∈ required ∧
      dictGet kwargs g = none := by
  induction required with
  | nil => cases hf
  | cons r rest ih =>
    cases hr : dictGet kwargs r with
    | none =>
      refine ⟨r, ?_, List.mem_cons_self r rest, hr⟩
      unfold findMissing
      simp only [hr]
    | some w =>
      have hf2 : f ∈ rest := by
        cases List.mem_cons.mp hf with
        | inl hh =>
          subst hh
          rw [hr] at hmiss
          exact Option.noConfusion hmiss
        | inr hh => exact hh
      obtain ⟨g, h1, h2, h3⟩ := ih hf2
      refine ⟨g, ?_, List.mem_cons_of_mem r h2, h3⟩
      unfold findMissing
      simp only [hr]
      exact h1

theorem validate_missing_eq {md : ToolMetadata}
    {kwargs : List (String × PyVal)} {g : String}
    (h : findMissing (schemaRequired md.input_schema) kwargs = some g) :
    validate_input md kwargs
      = Except.error
          (PyExc.toolValidationError
            ("Required field \x27" ++ g ++ "\x27 is missing")) := by
  unfold validate_input
  simp only [h]

/-- C1: for a registered name, a failing invocation fails with one of the
taxonomy kinds, UNLESS caching is enabled and the cache-key derivation of
the arguments fails at the cache-lookup step — src/tools.py line 128 runs
outside the `try`, so that fault escapes the engine unwrapped.  This is the
amended form of the claim; the unamended claim is refuted by
`cache_key_fault_escapes_taxonomy`. -/
theorem invoke_failure_taxonomy_or_cache_key_fault {reg : ToolRegistry}
    {tool : BaseTool} {tool_name : String} {kwargs : List (String × PyVal)}
    {e : PyExc} (hreg : get_tool reg tool_name = some tool)
    (herr : (execute_tool reg tool_name kwargs).outcome = Except.error e) :
    isTaxonomy e = true ∨
      (tool.metadata.cache_enabled = true ∧
        get_cache_key tool.metadata kwargs = Except.error e) := by
  rw [execute_eq_withTool hreg] at herr
  cases hv : validate_input tool.metadata kwargs with
  | error e2 =>
    rw [withTool_validate_err_eq hv] at herr
    injection herr with h2
    subst h2
    exact Or.inl (validate_error_taxonomy hv)
  | ok b =>
    rw [withTool_validate_ok_eq hv] at herr
    by_cases hce : tool.metadata.cache_enabled = true
    · cases hkey : get_cache_key tool.metadata kwargs with
      | error e2 =>
        rw [afterValidate_keyerr_eq hce hkey] at herr
        injection herr with h2
        subst h2
        exact Or.inr ⟨hce, rfl⟩
      | ok key =>
        cases hm : dictGet reg.cache key with
        | some w =>
          rw [afterValidate_hit_eq hce hkey hm] at herr
          exact Except.noConfusion herr
        | none =>
          rw [afterValidate_miss_eq hce hkey hm] at herr
          exact Or.inl (runHandler_error_taxonomy herr)
    · rw [afterValidate_nocache_eq hce] at herr
      exact Or.inl (runHandler_error_taxonomy herr)

/-- C1 counterexample: invoking the registered cache-enabled capability `t`
with a non-JSON-serialisable argument value makes the engine raise a raw
`TypeError` from the cache-key derivation — a fault kind outside the
four-kind taxonomy. -/
theorem cache_key_fault_escapes_taxonomy :
    get_tool regSer "t" = some serTool ∧
    (execute_tool regSer "t" [("x", PyVal.obj "object")]).outcome
      = Except.error
          (PyExc.typeError "Object of type object is not JSON serializable") ∧
    isTaxonomy (PyExc.typeError "Object of type object is not JSON serializable")
      = false :=
  ⟨rfl, rfl, rfl⟩

/-- C1 witness: the amended theorem applied to the `TypeError` escape. -/
theorem invoke_failure_taxonomy_or_cache_key_fault_witness :
    isTaxonomy (PyExc.typeError "Object of type object is not JSON serializable")
        = true ∨
      (serTool.metadata.cache_enabled = true ∧
        get_cache_key serTool.metadata [("x", PyVal.obj "object")]
          = Except.error
              (PyExc.typeError "Object of type object is not JSON serializable")) :=
  @invoke_failure_taxonomy_or_cache_key_fault regSer serTool "t"
    [("x", PyVal.obj "object")]
    (PyExc.typeError "Object of type object is not JSON serializable") rfl rfl

/-- C2: invoking a name with no registered entry fails with the NotFound
kind (`ToolError` naming the missing name), the handler is not started, and
the registry and cache are returned unchanged. -/
theorem invoke_unregistered_not_found (reg : ToolRegistry)
    (tool_name : String) (kwargs : List (String × PyVal))
    (h : get_tool reg tool_name = none) :
    execute_tool reg tool_name kwargs
      = ⟨Except.error
            (PyExc.toolError ("Tool \x27" ++ tool_name ++ "\x27 not found")),
          false, reg⟩ :=
  execute_eq_notfound h

/-- C2 witness: the name `ghost` on the empty registry. -/
theorem invoke_unregistered_not_found_witness :
    get_tool emptyReg "ghost" = none ∧
    execute_tool emptyReg "ghost" []
      = ⟨Except.error (PyExc.toolError "Tool \x27ghost\x27 not found"),
          false, emptyReg⟩ :=
  ⟨rfl, invoke_unregistered_not_found emptyReg "ghost" [] rfl⟩

/-- C3: when a registered capability is invoked with an argument set missing
at least one required field, the invocation fails with `ToolValidationError`
naming a missing field, the handler is not started, and the state is
unchanged. -/
theorem invoke_missing_required_field {reg : ToolRegistry} {tool : BaseTool}
    {tool_name : String} {kwargs : List (String × PyVal)} (f : String)
    (hreg : get_tool reg tool_name = some tool)
    (hf : f ∈ schemaRequired tool.metadata.input_schema)
    (hmiss : dictGet kwargs f = none) :
    ∃ g, g ∈ schemaRequired tool.metadata.input_schema ∧
      dictGet kwargs g = none ∧
      execute_tool reg tool_name kwargs
        = ⟨Except.error
              (PyExc.toolValidationError
                ("Required field \x27" ++ g ++ "\x27 is missing")),
            false, reg⟩ := by
  obtain ⟨g, h1, h2, h3⟩ := findMissing_some_of_missing hf hmiss
  refine ⟨g, h2, h3, ?_⟩
  rw [execute_eq_withTool hreg, withTool_validate_err_eq (validate_missing_eq h1)]

/-- C3 witness: `need_query` invoked with empty arguments fails with a
`ToolValidationError` naming `query`. -/
theorem invoke_missing_required_field_witness :
    execute_tool regNeedQuery "need_query" []
      = ⟨Except.error
            (PyExc.toolValidationError "Required field \x27query\x27 is missing"),
          false, regNeedQuery⟩ ∧
    (∃ g, g ∈ schemaRequired needQueryTool.metadata.input_schema ∧
      dictGet ([] : List (String × PyVal)) g = none ∧
      execute_tool regNeedQuery "need_query" []
        = ⟨Except.error
              (PyExc.toolValidationError
                ("Required field \x27" ++ g ++ "\x27 is missing")),
            false, regNeedQuery⟩) :=
  ⟨rfl, invoke_missing_required_field "query" rfl (by decide) rfl⟩

/-- C4: cache-key derivation is order-independent — two argument sets with
the same key/value pairs in different insertion order, keys distinct as in
any Python dict, derive equal fingerprints. -/
theorem derive_key_order_independent (md : ToolMetadata)
    {l₁ l₂ : List (String × PyVal)} (hperm : l₁.Perm l₂)
    (hnd : (l₁.map Prod.fst).Nodup) :
    get_cache_key md l₁ = get_cache_key md l₂ :=
  get_cache_key_perm md hperm hnd

/-- C4 witness: `deriveKey("t","1",\x7ba:1,b:2\x7d)` equals
`deriveKey("t","1",\x7bb:2,a:1\x7d)`. -/
theorem derive_key_order_independent_witness :
    ([("a", PyVal.int 1), ("b", PyVal.int 2)].map Prod.fst).Nodup ∧
    get_cache_key deriveMd [("a", PyVal.int 1), ("b", PyVal.int 2)]
      = get_cache_key deriveMd [("b", PyVal.int 2), ("a", PyVal.int 1)] :=
  ⟨by decide,
    derive_key_order_independent deriveMd
      (List.Perm.swap ("b", PyVal.int 2) ("a", PyVal.int 1) [])
      (by decide)⟩

/-- C5: after a first successful invocation of a cache-enabled capability,
a second sequential invocation with the same argument set up to key order
returns the first invocation's result straight from the cache, without
starting the handler. -/
theorem cached_second_invocation {reg : ToolRegistry} {tool : BaseTool}
    {tool_name : String} {kwargs₁ kwargs₂ : List (String × PyVal)} {v : PyVal}
    (hreg : get_tool reg tool_name = some tool)
    (hce : tool.metadata.cache_enabled = true)
    (hperm : kwargs₁.Perm kwargs₂)
    (hnd : (kwargs₁.map Prod.fst).Nodup)
    (h1 : (execute_tool reg tool_name kwargs₁).outcome = Except.ok v) :
    (execute_tool (execute_tool reg tool_name kwargs₁).state tool_name
        kwargs₂).outcome = Except.ok v ∧
    (execute_tool (execute_tool reg tool_name kwargs₁).state tool_name
        kwargs₂).handlerInvoked = false := by
  obtain ⟨hval, htools, key, hkey, hc⟩ := execute_ok_invariants hreg hce h1
  have hreg2 : get_tool (execute_tool reg tool_name kwargs₁).state tool_name
      = some tool := by
    unfold get_tool at hreg ⊢
    rw [htools]
    exact hreg
  have hval2 : validate_input tool.metadata kwargs₂ = Except.ok true := by
    rw [← validate_input_perm tool.metadata hperm]
    exact hval
  have hkey2 : get_cache_key tool.metadata kwargs₂ = Except.ok key := by
    rw [← get_cache_key_perm tool.metadata hperm hnd]
    exact hkey
  rw [execute_eq_withTool hreg2, withTool_validate_ok_eq hval2,
    afterValidate_hit_eq hce hkey2 hc]
  exact ⟨rfl, rfl⟩

/-- C5 witness: `echo` invoked with `\x7ba:1, b:2\x7d` then with
`\x7bb:2, a:1\x7d` returns the first result from the cache without a
second handler run. -/
theorem cached_second_invocation_witness :
    (execute_tool
        (execute_tool regEcho "echo"
          [("a", PyVal.int 1), ("b", PyVal.int 2)]).state
        "echo" [("b", PyVal.int 2), ("a", PyVal.int 1)]).outcome
      = Except.ok (PyVal.dict [("a", PyVal.int 1), ("b", PyVal.int 2)]) ∧
    (execute_tool
        (execute_tool regEcho "echo"
          [("a", PyVal.int 1), ("b", PyVal.int 2)]).state
        "echo" [("b", PyVal.int 2), ("a", PyVal.int 1)]).handlerInvoked
      = false :=
  cached_second_invocation rfl rfl
    (List.Perm.swap ("b", PyVal.int 2) ("a", PyVal.int 1) []) (by decide) rfl

/-- C6: a capability whose truthy timeout budget is exceeded by the handler
fails with `ToolTimeoutError`, and the state — in particular the result
cache at that invocation's fingerprint — is unchanged, so a later lookup of
the fingerprint still misses. -/
theorem invoke_timeout_leaves_cache_unpopulated {reg : ToolRegistry}
    {tool : BaseTool} {tool_name : String} {kwargs : List (String × PyVal)}
    {t : Rat} (hreg : get_tool reg tool_name = some tool)
    (hv : validate_input tool.metadata kwargs = Except.ok true)
    (hcache : cacheMissOrDisabled reg tool kwargs)
    (hb : timeoutBudget tool.metadata.timeout = some t)
    (hd : t < (tool.execute kwargs).duration) :
    execute_tool reg tool_name kwargs
      = ⟨Except.error
            (PyExc.toolTimeoutError
              ("Tool \x27" ++ tool_name ++ "\x27 execution timed out")),
          true, reg⟩ ∧
    (tool.metadata.cache_enabled = true →
      ∀ key, get_cache_key tool.metadata kwargs = Except.ok key →
        dictGet (execute_tool reg tool_name kwargs).state.cache key = none) := by
  have he : execute_tool reg tool_name kwargs
      = ⟨Except.error
            (PyExc.toolTimeoutError
              ("Tool \x27" ++ tool_name ++ "\x27 execution timed out")),
          true, reg⟩ := by
    rw [execute_reaches_handler hreg hv hcache, runHandler_timeout_eq hb hd]
  refine ⟨he, ?_⟩
  intro hce key hkey
  obtain ⟨key2, hk2, hm2⟩ := hcache hce
  rw [hkey] at hk2
  injection hk2 with hk3
  subst hk3
  rw [he]
  exact hm2

/-- C6 witness: `slow` with a 50 ms budget and a 500 ms handler. -/
theorem invoke_timeout_leaves_cache_unpopulated_witness :
    (execute_tool regSlow "slow" []
      = ⟨Except.error
            (PyExc.toolTimeoutError "Tool \x27slow\x27 execution timed out"),
          true, regSlow⟩) ∧
    (slowTool.metadata.cache_enabled = true →
      ∀ key, get_cache_key slowTool.metadata [] = Except.ok key →
        dictGet (execute_tool regSlow "slow" []).state.cache key = none) :=
  invoke_timeout_leaves_cache_unpopulated (t := fiftyMs) rfl rfl
    (fun _ =>
      ⟨"\x7b\"params\": [], \"tool\": \"slow\", \"version\": \"1.0.0\"\x7d",
        rfl, rfl⟩)
    rfl (by decide)

/-- C7: a handler fault other than a timeout is wrapped as
`ToolError("Tool execution failed: ...")` carrying `str` of the original
fault; the handler's own fault type never crosses the engine boundary. -/
theorem handler_fault_wrapped_as_execution_error {reg : ToolRegistry}
    {tool : BaseTool} {tool_name : String} {kwargs : List (String × PyVal)}
    {e : PyExc} (hreg : get_tool reg tool_name = some tool)
    (hv : validate_input tool.metadata kwargs = Except.ok true)
    (hcache : cacheMissOrDisabled reg tool kwargs)
    (hnotimeout : ∀ t, timeoutBudget tool.metadata.timeout = some t →
      ¬t < (tool.execute kwargs).duration)
    (hfail : (tool.execute kwargs).outcome = Except.error e)
    (hnt : isAsyncioTimeout e = false) :
    execute_tool reg tool_name kwargs
      = ⟨Except.error
            (PyExc.toolError ("Tool execution failed: " ++ excStr e)),
          true, reg⟩ := by
  rw [execute_reaches_handler hreg hv hcache]
  have hrun : runHandler reg tool tool_name kwargs
      = finishHandler reg tool tool_name kwargs (tool.execute kwargs).outcome := by
    cases hb : timeoutBudget tool.metadata.timeout with
    | none => exact runHandler_notime_eq hb
    | some t => exact runHandler_intime_eq hb (hnotimeout t hb)
  rw [hrun, hfail, finishHandler_err_wrap_eq (by simp [hnt])]

/-- C7 witness: a handler raising `ValueError("boom")` surfaces as
`ToolError("Tool execution failed: boom")`. -/
theorem handler_fault_wrapped_as_execution_error_witness :
    execute_tool regFaulty "faulty" []
      = ⟨Except.error (PyExc.toolError "Tool execution failed: boom"),
          true, regFaulty⟩ :=
  @handler_fault_wrapped_as_execution_error regFaulty faultyTool "faulty" []
    (PyExc.exc "ValueError" "boom") rfl rfl (fun h => absurd h (by decide))
    (fun _ ht => Option.noConfusion ht) rfl rfl

/-- C8: registering two capabilities with the same descriptor name leaves
exactly one entry under that name — the second one — and the listing is the
same as after the first registration alone (so its length is too). -/
theorem register_last_write_wins (reg : ToolRegistry) (t1 t2 : BaseTool)
    (hname : t1.metadata.name = t2.metadata.name)
    (hnd : (reg.tools.map Prod.fst).Nodup) :
    get_tool (register (register reg t1) t2) t1.metadata.name = some t2 ∧
    list_tools (register (register reg t1) t2) = list_tools (register reg t1) ∧
    (list_tools (register (register reg t1) t2)).count t1.metadata.name = 1 := by
  unfold register get_tool list_tools
  have hmem1 : t1.metadata.name
      ∈ (dictSet reg.tools t1.metadata.name t1).map Prod.fst := by
    by_contra hc
    have h2 := (dictGet_eq_none_iff
      (dictSet reg.tools t1.metadata.name t1) t1.metadata.name).mpr hc
    rw [dictGet_dictSet_self] at h2
    exact Option.noConfusion h2
  have hmem2 : t2.metadata.name
      ∈ (dictSet reg.tools t1.metadata.name t1).map Prod.fst := by
    rw [← hname]
    exact hmem1
  have hkeys : (dictSet (dictSet reg.tools t1.metadata.name t1)
        t2.metadata.name t2).map Prod.fst
      = (dictSet reg.tools t1.metadata.name t1).map Prod.fst := by
    rw [keys_dictSet, if_pos hmem2]
  have hnd1 : ((dictSet reg.tools t1.metadata.name t1).map Prod.fst).Nodup := by
    rw [keys_dictSet]
    by_cases hm : t1.metadata.name ∈ reg.tools.map Prod.fst
    · rw [if_pos hm]
      exact hnd
    · rw [if_neg hm]
      refine List.Nodup.append hnd (List.nodup_singleton _) ?_
      intro a ha hb
      rw [List.mem_singleton] at hb
      subst hb
      exact hm ha
  refine ⟨?_, ?_, ?_⟩
  · rw [hname]
    exact dictGet_dictSet_self _ _ _
  · exact hkeys
  · rw [hkeys]
    exact List.count_eq_one_of_mem hnd1 hmem1

/-- C8 witness: registering `dupFirstTool` then `dupSecondTool` (both named
`dup`) on the empty registry. -/
theorem register_last_write_wins_witness :
    get_tool (register (register emptyReg dupFirstTool) dupSecondTool) "dup"
      = some dupSecondTool ∧
    list_tools (register (register emptyReg dupFirstTool) dupSecondTool)
      = list_tools (register emptyReg dupFirstTool) ∧
    (list_tools (register (register emptyReg dupFirstTool)
        dupSecondTool)).count "dup" = 1 :=
  register_last_write_wins emptyReg dupFirstTool dupSecondTool rfl (by decide)

/-- C9: after `clear_cache`, repeating a cache-enabled invocation that
previously succeeded (derivable key, validation passing, handler returning
within any budget) starts the handler again, returns the fresh result, and
repopulates the cache under the same fingerprint. -/
theorem clear_cache_then_reinvoke {reg : ToolRegistry} {tool : BaseTool}
    {tool_name : String} {kwargs : List (String × PyVal)} {key : String}
    {v : PyVal} (hreg : get_tool reg tool_name = some tool)
    (hce : tool.metadata.cache_enabled = true)
    (hv : validate_input tool.metadata kwargs = Except.ok true)
    (hkey : get_cache_key tool.metadata kwargs = Except.ok key)
    (hnotimeout : ∀ t, timeoutBudget tool.metadata.timeout = some t →
      ¬t < (tool.execute kwargs).duration)
    (hok : (tool.execute kwargs).outcome = Except.ok v) :
    (execute_tool (clear_cache reg) tool_name kwargs).handlerInvoked = true ∧
    (execute_tool (clear_cache reg) tool_name kwargs).outcome = Except.ok v ∧
    dictGet (execute_tool (clear_cache reg) tool_name kwargs).state.cache key
      = some v := by
  have hreg2 : get_tool (clear_cache reg) tool_name = some tool := hreg
  have hmiss : dictGet (clear_cache reg).cache key = none := rfl
  have hrun : execute_tool (clear_cache reg) tool_name kwargs
      = finishHandler (clear_cache reg) tool tool_name kwargs
          (tool.execute kwargs).outcome := by
    rw [execute_reaches_handler hreg2 hv (fun _ => ⟨key, hkey, hmiss⟩)]
    cases hb : timeoutBudget tool.metadata.timeout with
    | none => exact runHandler_notime_eq hb
    | some t => exact runHandler_intime_eq hb (hnotimeout t hb)
  rw [hrun, hok, finishHandler_ok_cache_eq hce hkey]
  exact ⟨rfl, rfl, dictGet_dictSet_self _ _ _⟩

/-- C9 witness: `echo` invoked with `\x7ba:1\x7d` to populate the cache,
then `clear_cache`, then the same invocation runs the handler again and
recaches. -/
theorem clear_cache_then_reinvoke_witness :
    (execute_tool
        (clear_cache (execute_tool regEcho "echo" [("a", PyVal.int 1)]).state)
        "echo" [("a", PyVal.int 1)]).handlerInvoked = true ∧
    (execute_tool
        (clear_cache (execute_tool regEcho "echo" [("a", PyVal.int 1)]).state)
        "echo" [("a", PyVal.int 1)]).outcome
      = Except.ok (PyVal.dict [("a", PyVal.int 1)]) ∧
    dictGet
        (execute_tool
          (clear_cache (execute_tool regEcho "echo" [("a", PyVal.int 1)]).state)
          "echo" [("a", PyVal.int 1)]).state.cache
        "\x7b\"params\": [[\"a\", 1]], \"tool\": \"echo\", \"version\": \"1.0.0\"\x7d"
      = some (PyVal.dict [("a", PyVal.int 1)]) :=
  clear_cache_then_reinvoke rfl rfl rfl rfl
    (fun _ ht => Option.noConfusion ht) rfl

/-- C10 (amended): when the configured timeout is `None` or `0` the falsy
check applies no `asyncio.wait_for` budget at all — the handler outcome is
awaited whatever its duration — and the invocation fails with
`ToolTimeoutError` only when the handler itself surfaced
`asyncio.TimeoutError`.  The unamended claim ("never fails with
TimeoutError") is refuted by `zero_timeout_handler_timeout_cex`. -/
theorem no_engine_bound_when_timeout_unset {reg : ToolRegistry}
    {tool : BaseTool} {tool_name : String} {kwargs : List (String × PyVal)}
    (hreg : get_tool reg tool_name = some tool)
    (ht : tool.metadata.timeout = none ∨ tool.metadata.timeout = some 0)
    (hv : validate_input tool.metadata kwargs = Except.ok true)
    (hcache : cacheMissOrDisabled reg tool kwargs) :
    timeoutBudget tool.metadata.timeout = none ∧
    (∀ v, (tool.execute kwargs).outcome = Except.ok v →
      (execute_tool reg tool_name kwargs).outcome = Except.ok v) ∧
    (∀ msg, (execute_tool reg tool_name kwargs).outcome
        = Except.error (PyExc.toolTimeoutError msg) →
      (tool.execute kwargs).outcome = Except.error PyExc.asyncioTimeout) := by
  have hb : timeoutBudget tool.metadata.timeout = none := by
    rcases ht with h | h
    · rw [h]
      rfl
    · rw [h]
      simp [timeoutBudget]
  have hrun : execute_tool reg tool_name kwargs
      = finishHandler reg tool tool_name kwargs (tool.execute kwargs).outcome := by
    rw [execute_reaches_handler hreg hv hcache]
    exact runHandler_notime_eq hb
  refine ⟨hb, ?_, ?_⟩
  · intro v hv2
    rw [hrun, hv2]
    by_cases hce : tool.metadata.cache_enabled = true
    · obtain ⟨key, hk, _⟩ := hcache hce
      rw [finishHandler_ok_cache_eq hce hk]
    · rw [finishHandler_ok_nocache_eq hce]
  · intro msg hmsg
    rw [hrun] at hmsg
    cases hout : (tool.execute kwargs).outcome with
    | ok w =>
      rw [hout] at hmsg
      by_cases hce : tool.metadata.cache_enabled = true
      · cases hk2 : get_cache_key tool.metadata kwargs with
        | ok key =>
          rw [finishHandler_ok_cache_eq hce hk2] at hmsg
          exact Except.noConfusion hmsg
        | error e2 =>
          rw [finishHandler_ok_keyerr_eq hce hk2] at hmsg
          injection hmsg with h3
          exact PyExc.noConfusion h3
      · rw [finishHandler_ok_nocache_eq hce] at hmsg
        exact Except.noConfusion hmsg
    | error e =>
      by_cases hat : isAsyncioTimeout e = true
      · rw [isAsyncioTimeout_eq hat]
      · rw [hout, finishHandler_err_wrap_eq hat] at hmsg
        injection hmsg with h3
        exact PyExc.noConfusion h3

/-- C10 counterexample: the registered capability `z` has `timeout = 0`,
yet its invocation fails with `ToolTimeoutError`, because the handler
itself surfaces `asyncio.TimeoutError` and the bare `except
asyncio.TimeoutError` clause catches it — refuting "never fails with
TimeoutError". -/
theorem zero_timeout_handler_timeout_cex :
    get_tool regZero "z" = some zeroTimeoutTool ∧
    zeroTimeoutTool.metadata.timeout = some 0 ∧
    (execute_tool regZero "z" []).outcome
      = Except.error
          (PyExc.toolTimeoutError "Tool \x27z\x27 execution timed out") :=
  ⟨rfl, rfl, rfl⟩

/-- C10 witness: the amended theorem applied to `z`. -/
theorem no_engine_bound_when_timeout_unset_witness :
    timeoutBudget zeroTimeoutTool.metadata.timeout = none ∧
    (∀ v, (zeroTimeoutTool.execute []).outcome = Except.ok v →
      (execute_tool regZero "z" []).outcome = Except.ok v) ∧
    (∀ msg, (execute_tool regZero "z" []).outcome
        = Except.error (PyExc.toolTimeoutError msg) →
      (zeroTimeoutTool.execute []).outcome
        = Except.error PyExc.asyncioTimeout) :=
  no_engine_bound_when_timeout_unset rfl (Or.inr rfl) rfl
    (fun h => absurd h (by decide))

end BaseMCP
